import Mathlib

/-!
Verification development for the RadioRef-Export frequency pipeline
(src/getradios.py). The Python code is shallowly embedded: pure string
manipulation is translated to computable Lean functions over List Char,
HTML documents are represented by the table structure BeautifulSoup
extracts from them (a list of tables, each a list of rows, each a list of
cell texts as returned by get_text with strip=True), and network traffic
is represented by explicit result values passed as arguments.
-/

/- ===== String primitives (models of the Python str operations used) ===== -/

/-- Model of Python str.upper restricted to the ASCII range handled by Char.toUpper. -/
def upperStr (s : String) : String := String.mk (s.toList.map Char.toUpper)

/-- Model of Python str.lower restricted to the ASCII range handled by Char.toLower. -/
def lowerStr (s : String) : String := String.mk (s.toList.map Char.toLower)

/-- Boolean prefix test on character lists. -/
def isPrefixCh : List Char → List Char → Bool
  | [], _ => true
  | _ :: _, [] => false
  | a :: as, b :: bs => a == b && isPrefixCh as bs

/-- Boolean substring test on character lists: pat occurs somewhere in the second list. -/
def isSubCh (pat : List Char) : List Char → Bool
  | [] => isPrefixCh pat []
  | c :: rest => isPrefixCh pat (c :: rest) || isSubCh pat rest

/-- Model of the Python expression pat in s (substring containment). -/
def containsSub (pat s : String) : Bool := isSubCh pat.toList s.toList

/-- Model of Python str.startswith. -/
def startsWithStr (s pat : String) : Bool := isPrefixCh pat.toList s.toList

/-- Left-to-right non-overlapping replacement, fuel-bounded for structural recursion.
The fuel is the length of the scanned list, which bounds the number of steps. -/
def replaceLoop (pat rep : List Char) : Nat → List Char → List Char
  | _, [] => []
  | 0, l => l
  | fuel + 1, c :: rest =>
    if pat.isEmpty = false && isPrefixCh pat (c :: rest) then
      rep ++ replaceLoop pat rep fuel ((c :: rest).drop pat.length)
    else c :: replaceLoop pat rep fuel rest

/-- Model of Python str.replace(pat, rep) for nonempty pat. -/
def pyReplace (s pat rep : String) : String :=
  String.mk (replaceLoop pat.toList rep.toList s.toList.length s.toList)

/-- Model of Python str.strip(): drop leading and trailing whitespace. -/
def pyStrip (s : String) : String :=
  String.mk (((s.toList.dropWhile Char.isWhitespace).reverse.dropWhile Char.isWhitespace).reverse)

/-- Numeric value of a digit string, most significant digit first. -/
def natOfDigits (ds : List Char) : Nat := ds.foldl (fun a c => 10 * a + (c.toNat - 48)) 0

/- ===== Models of the regular expressions used by the extractor =====

re.search with these patterns returns the leftmost match; the scan below
tries each start position in order, which matches that semantics because
the patterns begin with a digit class and involve no backtracking across
the candidate start position. -/

/-- Match of the anchored pattern digits dot digits at the head of the list. -/
def matchDecimalAt (cs : List Char) : Option (List Char) :=
  let d1 := cs.takeWhile Char.isDigit
  let r1 := cs.dropWhile Char.isDigit
  if d1.isEmpty then none
  else
    match r1 with
    | '.' :: r2 =>
      let d2 := r2.takeWhile Char.isDigit
      if d2.isEmpty then none else some (d1 ++ '.' :: d2)
    | _ => none

/-- Leftmost match of the decimal pattern used as the row-acceptance gate. -/
def searchDecimalAux : List Char → Option (List Char)
  | [] => none
  | c :: rest =>
    match matchDecimalAt (c :: rest) with
    | some m => some m
    | none => searchDecimalAux rest

/-- Model of re.search for the pattern of one or more digits, a dot, then one
or more digits, returning the matched text. -/
def searchDecimal (s : String) : Option String := (searchDecimalAux s.toList).map String.mk

/-- Match of the tone-number pattern digits, optional dot, optional digits, at the head. -/
def matchNumAt (cs : List Char) : Option (List Char) :=
  let d1 := cs.takeWhile Char.isDigit
  let r1 := cs.dropWhile Char.isDigit
  if d1.isEmpty then none
  else
    match r1 with
    | '.' :: r2 => some (d1 ++ '.' :: r2.takeWhile Char.isDigit)
    | _ => some d1

/-- Leftmost match of the tone-number pattern. -/
def searchNumAux : List Char → Option (List Char)
  | [] => none
  | c :: rest =>
    match matchNumAt (c :: rest) with
    | some m => some m
    | none => searchNumAux rest

/-- Model of re.search for the pattern of digits with an optional fractional part. -/
def searchNum (s : String) : Option String := (searchNumAux s.toList).map String.mk

/-- Leftmost match of the integer pattern of one or more digits. -/
def searchIntAux : List Char → Option (List Char)
  | [] => none
  | c :: rest =>
    if c.isDigit then some ((c :: rest).takeWhile Char.isDigit) else searchIntAux rest

/-- Model of re.search for a bare digit run. -/
def searchInt (s : String) : Option String := (searchIntAux s.toList).map String.mk

/-- Exact decimal value of a numeric string of the shape digits or digits dot digits,
returned as a scaled mantissa together with the number of fractional digits.
This models the Python float conversion of the matched frequency text, which for
the band comparisons against integer bounds is exact. -/
def decValueAux (cs : List Char) : Option (Nat × Nat) :=
  let d1 := cs.takeWhile Char.isDigit
  let r1 := cs.dropWhile Char.isDigit
  if d1.isEmpty then none
  else
    match r1 with
    | [] => some (natOfDigits d1, 0)
    | '.' :: r2 =>
      let d2 := r2.takeWhile Char.isDigit
      if (r2.dropWhile Char.isDigit).isEmpty then some (natOfDigits (d1 ++ d2), d2.length)
      else none
    | _ => none

/-- Whether the numeric string s lies in the closed interval from lo to hi,
comparing the exact decimal value; models lo <= float(s) <= hi. -/
def freqInRange (s : String) (lo hi : Nat) : Bool :=
  match decValueAux s.toList with
  | some (m, k) => lo * 10 ^ k ≤ m && m ≤ hi * 10 ^ k
  | none => false

/- ===== The canonical frequency record (the 20 CHIRP columns) ===== -/

/-- The canonical frequency record of the extractor, one field per CHIRP column. -/
structure FreqRecord where
  Location : String
  Name : String
  Frequency : String
  Duplex : String
  Offset : String
  Tone : String
  rToneFreq : String
  cToneFreq : String
  DtcsCode : String
  DtcsPolarity : String
  RxDtcsCode : String
  CrossMode : String
  Mode : String
  TStep : String
  Skip : String
  Comment : String
  URCALL : String
  RPT1CALL : String
  RPT2CALL : String
  DVCODE : String
deriving Repr, DecidableEq

/- ===== FrequencyNormalizer: _parse_tone (src/getradios.py lines 3874 to 3899) ===== -/

/-- Embedding of RadioRefToChirp._parse_tone. Returns the triple of tone type,
rToneFreq and cToneFreq. -/
def _parse_tone (tone_text : String) : String × String × String :=
  if tone_text = "" then ("No Tone", "", "")
  else
    let tt := pyStrip (upperStr tone_text)
    match searchNum tt with
    | some tone_freq =>
      if containsSub "DCS" tt || containsSub "DTCS" tt then ("DTCS", tone_freq, tone_freq)
      else ("Tone", tone_freq, tone_freq)
    | none =>
      if containsSub "DCS" tt || containsSub "DTCS" tt then
        match searchInt tt with
        | some d => ("DTCS", d, d)
        | none => ("No Tone", "", "")
      else ("No Tone", "", "")

/- ===== Mode classification (lines 3818 to 3828) ===== -/

/-- Embedding of the mode-cell classification in _parse_html_response: the cell is
none when the table has no usable mode column, in which case FM is the default. -/
def parseModeCell (cell : Option String) : String :=
  match cell with
  | none => "FM"
  | some t =>
    let mode_text := upperStr t
    if containsSub "P25" mode_text || containsSub "DIGITAL" mode_text then "Digital"
    else if containsSub "DMR" mode_text then "DMR"
    else if containsSub "NXDN" mode_text then "NXDN"
    else if containsSub "FMN" mode_text || containsSub "FM" mode_text then "FM"
    else "FM"

/- ===== Duplex and offset inference (lines 3830 to 3846) ===== -/

/-- Embedding of the duplex and offset inference in _parse_html_response: the type
cell is none when the table has no usable type column. The frequency argument is
the decimal text matched by the row-acceptance gate. -/
def inferDuplexOffset (type_cell : Option String) (frequency : String) : String × String :=
  match type_cell with
  | none => ("", "")
  | some t =>
    let type_text := upperStr t
    if containsSub "RM" type_text || containsSub "REPEATER" type_text then
      if freqInRange frequency 144 148 then ("+", "0.6")
      else if freqInRange frequency 440 450 then ("+", "5.0")
      else if freqInRange frequency 150 160 then ("+", "0.0")
      else ("", "")
    else if containsSub "BM" type_text || containsSub "BASE" type_text then ("", "")
    else ("", "")

/- ===== FrequencyTableExtractor: _parse_html_response (lines 3742 to 3872) ===== -/

/-- The logical column map built from the lowercased header cells (lines 3770 to 3783). -/
structure ColMap where
  frequency : Option Nat := none
  tone : Option Nat := none
  alpha_tag : Option Nat := none
  description : Option Nat := none
  mode : Option Nat := none
  type : Option Nat := none
deriving Repr, DecidableEq

/-- One step of the header keyword chain: the elif chain in the source assigns the
header to the first matching logical column, later headers overwriting earlier
indices for the same column. -/
def colMapStep (cm : ColMap) (idx : Nat) (header : String) : ColMap :=
  if containsSub "freq" header then { cm with frequency := some idx }
  else if containsSub "tone" header then { cm with tone := some idx }
  else if containsSub "alpha" header || containsSub "tag" header then { cm with alpha_tag := some idx }
  else if containsSub "desc" header then { cm with description := some idx }
  else if containsSub "mode" header then { cm with mode := some idx }
  else if containsSub "type" header then { cm with type := some idx }
  else cm

/-- Column map of a header row (headers already lowercased). -/
def buildColMap (headers : List String) : ColMap :=
  (headers.enum).foldl (fun cm p => colMapStep cm p.1 p.2) {}

/-- The cell a logical column designates, if the column exists and its index is in
range for this row; models the pattern idx in col_map and col_map idx below len(cells). -/
def cellAt (cells : List String) (col : Option Nat) : Option String :=
  col.bind cells.get?

/-- The frequency text of a row (lines 3790 to 3794): the designated frequency cell
when usable, otherwise the first cell. -/
def rowFreqText (cm : ColMap) (cells : List String) : String :=
  (cellAt cells cm.frequency).getD (cells.headD "")

/-- The county-or-state text used in the Comment field; models the Python
expression county or state for an optional county. -/
def countyOrState (county : Option String) (state : String) : String :=
  match county with
  | some c => if c = "" then state else c
  | none => state

/-- Embedding of the per-row body of _parse_html_response (lines 3785 to 3870),
producing the record for one data row, or none when the row is skipped. The
Location field is left empty here; in the source it is the length of the list
accumulated so far, which equals the final index of the record, assigned below. -/
def parseRowPre (cm : ColMap) (state : String) (county city : Option String)
    (cells : List String) : Option FreqRecord :=
  if cells.length < 2 then none
  else
    match searchDecimal (rowFreqText cm cells) with
    | none => none
    | some frequency =>
      let name := ((cellAt cells cm.alpha_tag).orElse (fun _ => cellAt cells cm.description)).getD ""
      let tone_text := (cellAt cells cm.tone).getD ""
      let tparsed := _parse_tone tone_text
      let description := (cellAt cells cm.description).getD ""
      let mode := parseModeCell (cellAt cells cm.mode)
      let dro := inferDuplexOffset (cellAt cells cm.type) frequency
      some {
        Location := ""
        Name := if name = "" then (if description = "" then "Frequency " ++ frequency else description) else name
        Frequency := frequency
        Duplex := dro.1
        Offset := dro.2
        Tone := tparsed.1
        rToneFreq := tparsed.2.1
        cToneFreq := tparsed.2.2
        DtcsCode := ""
        DtcsPolarity := "NN"
        RxDtcsCode := ""
        CrossMode := ""
        Mode := mode
        TStep := "25.0"
        Skip := ""
        Comment := if name = "" then ""
          else if description = "" then countyOrState county state ++ " - " ++ name
          else description
        URCALL := ""
        RPT1CALL := ""
        RPT2CALL := ""
        DVCODE := ""
      }

/-- Records contributed by one table (lines 3755 to 3870): tables with fewer than
two rows are skipped, a table is a candidate only when some header contains freq
or mhz, and each data row passes through parseRowPre. -/
def tableRecords (state : String) (county city : Option String)
    (table : List (List String)) : List FreqRecord :=
  if table.length < 2 then []
  else
    match table with
    | [] => []
    | header_row :: data_rows =>
      let headers := header_row.map (fun h => lowerStr h)
      if headers.any (fun h => containsSub "freq" h || containsSub "mhz" h) then
        data_rows.filterMap (parseRowPre (buildColMap headers) state county city)
      else []

/-- Assign the Location fields sequentially from a starting index. In the source
each record is created with Location equal to len(frequencies) at creation time,
which is exactly its index in the final list. -/
def assignLocations (start : Nat) : List FreqRecord → List FreqRecord
  | [] => []
  | r :: rs => { r with Location := toString start } :: assignLocations (start + 1) rs

/-- Embedding of RadioRefToChirp._parse_html_response: its HTML argument is
represented by the list of tables BeautifulSoup extracts, each table a list of
rows of cell texts. -/
def _parse_html_response (tables : List (List (List String))) (state : String)
    (county city : Option String) : List FreqRecord :=
  assignLocations 0 (tables.flatMap (tableRecords state county city))


/- ===== FrequencyFilter: filter_frequencies (lines 2163 to 2189) ===== -/

/-- The per-record keep decision of filter_frequencies for an uppercased,
stripped filter token. -/
def keepRecord (fm : String) (freq : FreqRecord) : Bool :=
  let mode := upperStr freq.Mode
  if fm = "FM" || fm = "ANALOG" then
    (mode = "FM" || mode = "AM" || mode = "") || containsSub "FM" mode || containsSub "ANALOG" mode
  else if fm = "DIGITAL" || fm = "ENCRYPTED" then
    mode = "DIGITAL" || mode = "DMR" || mode = "P25" || mode = "NXDN" || mode = "D-STAR" || mode = "C4FM"
  else if fm = "DMR" then
    containsSub "DMR" mode
  else if fm = "P25" then
    containsSub "P25" mode || containsSub "DIGITAL" mode
  else
    containsSub fm mode || containsSub mode fm

/-- Embedding of RadioRefToChirp.filter_frequencies. A missing or empty filter
token returns the input unchanged; otherwise the token is uppercased and
stripped and the records are filtered by the category rules. -/
def filter_frequencies (frequencies : List FreqRecord) (filter_mode : Option String) : List FreqRecord :=
  match filter_mode with
  | none => frequencies
  | some fm0 =>
    if fm0 = "" then frequencies
    else frequencies.filter (keepRecord (pyStrip (upperStr fm0)))

/- ===== Export renumbering: to_chirp_csv (lines 3934 to 3976) ===== -/

/-- The Location assignment loop of to_chirp_csv: a record with an empty Location
always receives start_location plus its index; a record with a nonempty Location
is renumbered only when appending to an existing file (file_exists true), and is
otherwise written unchanged. When not appending the source sets start_location
to zero. -/
def exportLocationLoop (file_exists : Bool) (start_location : Nat) : Nat → List FreqRecord → List FreqRecord
  | _, [] => []
  | idx, f :: fs =>
    (if f.Location = "" then { f with Location := toString (start_location + idx) }
     else if file_exists then { f with Location := toString (start_location + idx) }
     else f) :: exportLocationLoop file_exists start_location (idx + 1) fs

/-- Embedding of the record mutation performed by to_chirp_csv before writing. -/
def to_chirp_csv_records (frequencies : List FreqRecord) (file_exists : Bool)
    (start_location : Nat) : List FreqRecord :=
  exportLocationLoop file_exists start_location 0 frequencies

/- ===== County identifier cache model ===== -/

/-- Cache key: county name paired with state code. -/
abbrev CountyKey := String × String

/-- The county identifier cache, an insertion-ordered key-value map as a Python
dict of (county, state) to identifier. -/
abbrev CountyCache := List (CountyKey × String)

/-- Membership test, modelling the Python expression key in cache. -/
def cacheHas (c : CountyCache) (k : CountyKey) : Bool := c.any (fun p => p.1 == k)

/-- Lookup, modelling cache[key] access on a dict represented as an ordered list. -/
def lookupCache (c : CountyCache) (k : CountyKey) : Option String :=
  (c.find? (fun p => p.1 == k)).map Prod.snd

/-- Single-key dict assignment: overwrite in place when present, append otherwise. -/
def dictInsert (c : CountyCache) (k : CountyKey) (v : String) : CountyCache :=
  if cacheHas c k then c.map (fun p => if p.1 == k then (p.1, v) else p) else c ++ [(k, v)]

/-- Model of Python dict.update: fold the delta entries into the cache. -/
def dictUpdate (c delta : CountyCache) : CountyCache :=
  delta.foldl (fun acc p => dictInsert acc p.1 p.2) c

/- ===== Cache key normalization (lines 2281 and 3545 to 3575) ===== -/

/-- The county key built by _get_known_county_id (line 3566): lowercase the
county, remove the occurrences of the lowercase word county preceded by a
space, and strip whitespace; the state is lowercased. -/
def _get_known_county_id_key (county state : String) : CountyKey :=
  (pyStrip (pyReplace (lowerStr county) " county" ""), lowerStr state)

/-- The county text normalization at the top of lookup_by_county_state
(line 2281): remove the capitalized and lowercase County word and strip. -/
def lookup_by_county_state_county (county : String) : String :=
  pyStrip (pyReplace (pyReplace county " County" "") " county" "")

/-- The hardcoded known county table of _get_known_county_id (lines 3556 to 3564). -/
def known_counties : CountyCache :=
  [(("sanders", "mt"), "1638"),
   (("king", "wa"), "2974"),
   (("santa barbara", "ca"), "83"),
   (("los angeles", "ca"), "19"),
   (("orange", "ca"), "59"),
   (("san diego", "ca"), "61"),
   (("san francisco", "ca"), "60")]

/-- Embedding of _get_known_county_id (lines 3545 to 3575): the hardcoded table is
consulted first, then the loaded cache, both with the same normalized key. -/
def _get_known_county_id (cache : CountyCache) (county state : String) : Option String :=
  let county_key := _get_known_county_id_key county state
  match lookupCache known_counties county_key with
  | some cid => some cid
  | none => lookupCache cache county_key

/-- Helper for the claim comparison: drop the given suffix from a string when present. -/
def stripSuffixStr (s suffix : String) : String :=
  if isPrefixCh suffix.toList.reverse s.toList.reverse then
    String.mk (s.toList.take (s.toList.length - suffix.toList.length))
  else s

/-- Normalization as the claim words it, for comparison with the code key: the
lowercase county name with the County, Parish, Borough and Census Area suffixes
stripped and whitespace trimmed, paired with the lowercase state code. -/
def claimCountyKey (county state : String) : CountyKey :=
  let c0 := lowerStr county
  let c1 := stripSuffixStr (stripSuffixStr (stripSuffixStr (stripSuffixStr c0 " county") " parish") " borough") " census area"
  (pyStrip c1, lowerStr state)

/- ===== ExternalVerifier: _verify_county_with_api (lines 3313 to 3362) ===== -/

/-- The address object of the first geocoding result, with the fields the code reads. -/
structure NominatimAddress where
  state_code : String
  state : String
  county : String
deriving Repr, DecidableEq

/-- Outcome of the external geocoding call: fail stands for any exception raised
during the request or while parsing its body (the except branch of the source),
and response carries the HTTP status with the parsed result list. -/
inductive ApiResult where
  | fail : ApiResult
  | response : Nat → List NominatimAddress → ApiResult
deriving Repr, DecidableEq

/-- The state comparison of the verifier (lines 3350 and 3354): the result state
is the uppercased state_code when nonempty, else the uppercased state name, and
it must contain or be contained in the uppercased requested state. -/
def verifierStateMatches (state : String) (addr : NominatimAddress) : Bool :=
  let result_state := if upperStr addr.state_code = "" then upperStr addr.state else upperStr addr.state_code
  containsSub (upperStr state) result_state || containsSub result_state (upperStr state)

/-- The county comparison of the verifier (lines 3352 to 3358): an empty county
field verifies; otherwise the lowercased requested name must occur in the result
county or the result county must start with it. -/
def verifierCountyMatches (county_name : String) (addr : NominatimAddress) : Bool :=
  let result_county := lowerStr addr.county
  if result_county = "" then true
  else containsSub (lowerStr county_name) result_county
    || startsWithStr result_county (lowerStr county_name)

/-- Embedding of _verify_county_with_api: any exception yields true (fail-open);
a received response yields true only on status 200 with a nonempty result list
whose first result passes the state and county comparisons. -/
def _verify_county_with_api (county_name state : String) (api : ApiResult) : Bool :=
  match api with
  | .fail => true
  | .response status data =>
    if status = 200 then
      match data with
      | result :: _ =>
        if verifierStateMatches state result then
          if lowerStr result.county = "" then true
          else containsSub (lowerStr county_name) (lowerStr result.county)
            || startsWithStr (lowerStr result.county) (lowerStr county_name)
        else false
      | [] => false
    else false

/- ===== Bulk discovery and the verification gate (lines 3006 to 3311 and 3364 to 3467) ===== -/

/-- Result of the inner discovery _build_county_cache_for_state: the discovered
batch and the cache snapshots it persisted itself while discovering. -/
structure DiscoveryResult where
  discovered : CountyCache
  innerSaves : List CountyCache
deriving Repr, DecidableEq

/-- Embedding of _build_county_cache_for_state. Its network interactions are
inputs: knownListProbe is the per-county probe result when a static county list
exists for the state (lines 3025 to 3088, which never saves the cache file);
playwright is the rendered-page dropdown extraction (line 3097) and mined the
additional entries recovered from the browse page regex sweep (lines 3148 to
3274). When the playwright extraction is nonempty the source immediately merges
it into the loaded cache and saves the file (lines 3125 to 3129), before any
verification has happened. -/
def _build_county_cache_for_state (knownListProbe : Option CountyCache)
    (playwright mined : CountyCache) (existing : CountyCache) : DiscoveryResult :=
  match knownListProbe with
  | some probed => { discovered := probed, innerSaves := [] }
  | none =>
    if playwright.isEmpty then
      { discovered := mined, innerSaves := [] }
    else
      { discovered := dictUpdate playwright mined
        innerSaves := [dictUpdate existing playwright] }

/-- Number of verified pairs in the sample of min 5 of the batch (lines 3406 to
3419): the first sample entries are verified, the state being uppercased before
the call. -/
def sampleVerifiedCount (verify : String → String → Bool) (discovered : CountyCache) : Nat :=
  ((discovered.take (min 5 discovered.length)).filter (fun p => verify p.1.1 (upperStr p.1.2))).length

/-- Outcome of the outer build_county_cache_for_state on a discovered batch. -/
structure OuterOutcome where
  accepted : Bool
  savedCache : CountyCache
  outerSaves : List CountyCache
  newCounties : Nat
deriving Repr, DecidableEq

/-- One step of the acceptance loop (lines 3424 to 3427): a discovered entry whose
key is already cached is skipped, a new key is appended and counted. -/
def cacheMergeStep (acc : CountyCache × Nat) (p : CountyKey × String) : CountyCache × Nat :=
  if cacheHas acc.1 p.1 then acc else (acc.1 ++ [p], acc.2 + 1)

/-- Embedding of build_county_cache_for_state (lines 3390 to 3455) given the
loaded cache and the batch the inner discovery returned. The float comparison
verification_rate greater or equal 0.8 is written in the exact rational form
five times verified at least four times the sample size, which agrees with the
float computation for every sample size up to five. On acceptance each
discovered key missing from the cache is appended and the merged cache is saved
(twice when anything was new, lines 3429 and 3436); on rejection the outer
function saves nothing. -/
def build_county_cache_for_state (existing discovered : CountyCache)
    (verify : String → String → Bool) : OuterOutcome :=
  if discovered.isEmpty then
    { accepted := false, savedCache := existing, outerSaves := [], newCounties := 0 }
  else
    let sample_size := min 5 discovered.length
    let verified_count := sampleVerifiedCount verify discovered
    if 5 * verified_count ≥ 4 * sample_size then
      let step := discovered.foldl cacheMergeStep (existing, 0)
      { accepted := true
        savedCache := step.1
        outerSaves := [step.1] ++ (if step.2 > 0 then [step.1] else [])
        newCounties := step.2 }
    else
      { accepted := false, savedCache := existing, outerSaves := [], newCounties := 0 }

/-- Every cache snapshot persisted by the discovery operation as a whole: the
saves of the inner discovery followed by the saves of the outer gate. -/
def discoverySaves (existing : CountyCache) (disc : DiscoveryResult)
    (verify : String → String → Bool) : List CountyCache :=
  disc.innerSaves ++ (build_county_cache_for_state existing disc.discovered verify).outerSaves

/-- The keys that appear in some persisted snapshot but not in the original cache:
the new cache entries the discovery operation persisted. -/
def newKeysPersisted (existing : CountyCache) (saves : List CountyCache) : List CountyKey :=
  (saves.flatMap (fun c => c.map Prod.fst)).filter (fun k => !(cacheHas existing k))



/- ===== Auxiliary definitions for the claim statements ===== -/

/-- The repeater-type condition of the duplex inference (line 3834): the uppercased
type cell contains RM or REPEATER. -/
def isRepeaterType (t : String) : Bool :=
  containsSub "RM" (upperStr t) || containsSub "REPEATER" (upperStr t)

/-- Follows the claim wording, for comparison with the code: the only inputs on
which the claim permits a false verdict from the verifier, namely a well-formed
response (status 200, nonempty result list) whose first result disagrees with
the requested county and state pair. -/
def claimWellFormedDisagree (county state : String) (api : ApiResult) : Bool :=
  match api with
  | .fail => false
  | .response status data =>
    match data with
    | [] => false
    | addr :: _ => status == 200 && !(verifierStateMatches state addr && verifierCountyMatches county addr)

/-- A record with all twenty fields empty, used to build concrete test records. -/
def blankRecord : FreqRecord :=
  { Location := "", Name := "", Frequency := "", Duplex := "", Offset := "", Tone := ""
    rToneFreq := "", cToneFreq := "", DtcsCode := "", DtcsPolarity := "", RxDtcsCode := ""
    CrossMode := "", Mode := "", TStep := "", Skip := "", Comment := "", URCALL := ""
    RPT1CALL := "", RPT2CALL := "", DVCODE := "" }

/-- A concrete frequency table: header row plus one repeater row at 146.940. -/
def sampleTable : List (List String) :=
  [["Frequency", "Tone", "Mode", "Type"], ["146.940", "100.0", "FM", "RM"]]

/-- The record the extractor produces from sampleTable. -/
def sampleRecord : FreqRecord :=
  { blankRecord with
    Location := "0", Name := "Frequency 146.940", Frequency := "146.940",
    Duplex := "+", Offset := "0.6", Tone := "Tone", rToneFreq := "100.0",
    cToneFreq := "100.0", DtcsPolarity := "NN", Mode := "FM", TStep := "25.0" }

/-- Concrete records for the filter example. -/
def recFM : FreqRecord := { blankRecord with Mode := "FM" }

/-- Concrete record with digital mode for the filter example. -/
def recDMR : FreqRecord := { blankRecord with Mode := "DMR" }

/-- Concrete record with empty mode for the filter example. -/
def recEmptyMode : FreqRecord := blankRecord

/-- Concrete record carrying a nonempty Location, for the export renumbering claim. -/
def recLocSeven : FreqRecord := { blankRecord with Location := "7" }

/-- A concrete batch of five discovered counties, as produced by the rendered-page path. -/
def cxPlaywright : CountyCache :=
  [(("alpha", "mi"), "101"), (("beta", "mi"), "102"), (("gamma", "mi"), "103"),
   (("delta", "mi"), "104"), (("epsilon", "mi"), "105")]

/-- A concrete verifier outcome: exactly three of the five sampled counties verify. -/
def cxVerify (county _state : String) : Bool :=
  county == "alpha" || county == "beta" || county == "gamma"

/-- The inner discovery outcome on the concrete batch through the rendered-page path
with an empty starting cache. -/
def cxDiscovery : DiscoveryResult :=
  _build_county_cache_for_state none cxPlaywright [] []

/-- A concrete verifier outcome: four of the five sampled counties verify. -/
def cxVerifyFour (county _state : String) : Bool :=
  !(county == "epsilon")

/- ===== Helper lemmas ===== -/

/-- Packing a valid code point and reading it back is the identity. -/
theorem char_toNat_ofNat {n : Nat} (h : n.isValidChar) : (Char.ofNat n).toNat = n := by
  simp [Char.ofNat, Char.ofNatAux, dif_pos h, Char.toNat, UInt32.toNat]

/-- Uppercasing a character twice is the same as doing it once. -/
theorem toUpper_idem (c : Char) : (c.toUpper).toUpper = c.toUpper := by
  unfold Char.toUpper
  dsimp only
  split
  · next h =>
    have hvalid : (c.toNat - 32).isValidChar := by
      constructor
      omega
    rw [if_neg]
    rw [char_toNat_ofNat hvalid]
    omega
  · rfl

/-- Uppercasing a string twice is the same as doing it once. -/
theorem upperStr_idem (t : String) : upperStr (upperStr t) = upperStr t := by
  unfold upperStr
  rw [show (String.mk (t.toList.map Char.toUpper)).toList = t.toList.map Char.toUpper from rfl]
  rw [List.map_map]
  exact congrArg String.mk (List.map_congr_left (fun c _ => toUpper_idem c))

/-- Uppercasing preserves emptiness of a string. -/
theorem upperStr_eq_empty_iff (t : String) : (upperStr t = "") ↔ (t = "") := by
  constructor
  · intro h
    have hd : t.toList.map Char.toUpper = [] := congrArg String.data h
    have hnil : t.data = [] := List.map_eq_nil_iff.mp hd
    apply String.ext
    rw [hnil]
  · intro h
    rw [h]
    rfl

/-- The tone parser always mirrors the matched value into both tone fields. -/
theorem parse_tone_mirrors (s : String) : (_parse_tone s).2.1 = (_parse_tone s).2.2 := by
  unfold _parse_tone
  split
  · rfl
  · dsimp only
    split
    · split <;> rfl
    · split
      · split <;> rfl
      · rfl

/-- The anchored tone-number pattern fails at a cons exactly when the head is not a digit. -/
theorem matchNumAt_cons_none {c : Char} {rest : List Char} :
    matchNumAt (c :: rest) = none ↔ c.isDigit = false := by
  unfold matchNumAt
  cases hc : c.isDigit with
  | false => simp [List.takeWhile_cons, hc]
  | true =>
    simp only [List.takeWhile_cons, hc, List.dropWhile_cons, if_pos, cond_true]
    simp
    split <;> simp

/-- When the tone-number pattern has no match the bare integer pattern has none either,
because both require at least one digit. -/
theorem searchIntAux_none_of_searchNumAux_none {cs : List Char}
    (h : searchNumAux cs = none) : searchIntAux cs = none := by
  induction cs with
  | nil => rfl
  | cons c rest ih =>
    unfold searchNumAux at h
    unfold searchIntAux
    cases hm : matchNumAt (c :: rest) with
    | some m => rw [hm] at h; exact absurd h (by simp)
    | none =>
      rw [hm] at h
      have hc : c.isDigit = false := matchNumAt_cons_none.mp hm
      rw [hc]
      simp only [Bool.false_eq_true, if_false]
      exact ih h

/-- Interval separation for the band test: a value inside a low band cannot lie in
a band whose lower bound exceeds the high bound of the first. -/
theorem freqInRange_disjoint_above {s : String} {lo1 hi1 lo2 hi2 : Nat} (hlt : hi1 < lo2)
    (h1 : freqInRange s lo1 hi1 = true) : freqInRange s lo2 hi2 = false := by
  unfold freqInRange at h1 ⊢
  cases hd : decValueAux s.toList with
  | none => rfl
  | some mk =>
    obtain ⟨m, k⟩ := mk
    rw [hd] at h1
    dsimp only at h1 ⊢
    simp only [Bool.and_eq_true, decide_eq_true_eq] at h1
    simp only [Bool.and_eq_false_iff, decide_eq_false_iff_not, not_le]
    left
    have hp : 0 < 10 ^ k := Nat.pos_pow_of_pos k (by norm_num)
    have key : (hi1 + 1) * 10 ^ k ≤ lo2 * 10 ^ k :=
      Nat.mul_le_mul (Nat.succ_le_of_lt hlt) (Nat.le_refl _)
    have expand : (hi1 + 1) * 10 ^ k = hi1 * 10 ^ k + 10 ^ k := by ring
    linarith [h1.2]

/-- Interval separation in the other direction. -/
theorem freqInRange_disjoint_below {s : String} {lo1 hi1 lo2 hi2 : Nat} (hlt : hi1 < lo2)
    (h2 : freqInRange s lo2 hi2 = true) : freqInRange s lo1 hi1 = false := by
  unfold freqInRange at h2 ⊢
  cases hd : decValueAux s.toList with
  | none => rfl
  | some mk =>
    obtain ⟨m, k⟩ := mk
    rw [hd] at h2
    dsimp only at h2 ⊢
    simp only [Bool.and_eq_true, decide_eq_true_eq] at h2
    simp only [Bool.and_eq_false_iff, decide_eq_false_iff_not, not_le]
    right
    have hp : 0 < 10 ^ k := Nat.pos_pow_of_pos k (by norm_num)
    have key : (hi1 + 1) * 10 ^ k ≤ lo2 * 10 ^ k :=
      Nat.mul_le_mul (Nat.succ_le_of_lt hlt) (Nat.le_refl _)
    have expand : (hi1 + 1) * 10 ^ k = hi1 * 10 ^ k + 10 ^ k := by ring
    linarith [h2.1]

/- ===== Claim C5: duplex and offset inference ===== -/

/-- C5: duplex and offset inference applies only to rows whose type cell indicates
a repeater (contains RM or REPEATER): such a row with frequency in 144 to 148 MHz
gets duplex plus and offset 0.6, in 440 to 450 MHz plus and 5.0, in 150 to 160
MHz plus and 0.0; repeater rows outside these bands, base rows and rows without
a type cell get empty duplex and empty offset. -/
theorem c5_duplex_offset_inference :
    (∀ t freq, isRepeaterType t = true → freqInRange freq 144 148 = true →
        inferDuplexOffset (some t) freq = ("+", "0.6"))
  ∧ (∀ t freq, isRepeaterType t = true → freqInRange freq 440 450 = true →
        inferDuplexOffset (some t) freq = ("+", "5.0"))
  ∧ (∀ t freq, isRepeaterType t = true → freqInRange freq 150 160 = true →
        inferDuplexOffset (some t) freq = ("+", "0.0"))
  ∧ (∀ t freq, isRepeaterType t = true → freqInRange freq 144 148 = false →
        freqInRange freq 440 450 = false → freqInRange freq 150 160 = false →
        inferDuplexOffset (some t) freq = ("", ""))
  ∧ (∀ t freq, isRepeaterType t = false → inferDuplexOffset (some t) freq = ("", ""))
  ∧ (∀ freq, inferDuplexOffset none freq = ("", "")) := by
  refine ⟨?_, ?_, ?_, ?_, ?_, ?_⟩
  · intro t freq hrep hr
    unfold isRepeaterType at hrep
    simp only [inferDuplexOffset, hrep, hr, if_true]
  · intro t freq hrep hr
    unfold isRepeaterType at hrep
    have h1 : freqInRange freq 144 148 = false := freqInRange_disjoint_below (by norm_num) hr
    simp only [inferDuplexOffset, hrep, hr, h1, if_true, Bool.false_eq_true, if_false]
  · intro t freq hrep hr
    unfold isRepeaterType at hrep
    have h1 : freqInRange freq 144 148 = false := freqInRange_disjoint_below (by norm_num) hr
    have h2 : freqInRange freq 440 450 = false := freqInRange_disjoint_above (by norm_num) hr
    simp only [inferDuplexOffset, hrep, hr, h1, h2, if_true, Bool.false_eq_true, if_false]
  · intro t freq hrep h1 h2 h3
    unfold isRepeaterType at hrep
    simp only [inferDuplexOffset, hrep, h1, h2, h3, if_true, Bool.false_eq_true, if_false]
  · intro t freq hrep
    unfold isRepeaterType at hrep
    simp only [inferDuplexOffset, hrep, Bool.false_eq_true, if_false]
    split <;> rfl
  · intro freq
    rfl

/-- Witness for C5 at concrete inputs, discharging every hypothesis. -/
theorem c5_witness :
    inferDuplexOffset (some "RM") "146.940" = ("+", "0.6")
  ∧ inferDuplexOffset (some "REPEATER") "443.000" = ("+", "5.0")
  ∧ inferDuplexOffset (some "RM") "155.000" = ("+", "0.0")
  ∧ inferDuplexOffset (some "RM") "52.525" = ("", "")
  ∧ inferDuplexOffset (some "BM") "146.940" = ("", "")
  ∧ inferDuplexOffset none "146.940" = ("", "") :=
  ⟨c5_duplex_offset_inference.1 "RM" "146.940" (by rfl) (by rfl),
   c5_duplex_offset_inference.2.1 "REPEATER" "443.000" (by rfl) (by rfl),
   c5_duplex_offset_inference.2.2.1 "RM" "155.000" (by rfl) (by rfl),
   c5_duplex_offset_inference.2.2.2.1 "RM" "52.525" (by rfl) (by rfl) (by rfl) (by rfl),
   c5_duplex_offset_inference.2.2.2.2.1 "BM" "146.940" (by rfl),
   c5_duplex_offset_inference.2.2.2.2.2 "146.940"⟩

/- ===== Claim C7: mode classification precedence ===== -/

/-- C7: mode classification follows a fixed precedence independent of token order:
P25 or DIGITAL in the text yields Digital, otherwise DMR yields DMR, otherwise
NXDN yields NXDN, and otherwise the result is FM (whether or not the text
mentions FM); a row with no mode cell defaults to FM, and the cell P25/DMR
classifies as Digital. -/
theorem c7_mode_precedence :
    (∀ t, (containsSub "P25" (upperStr t) || containsSub "DIGITAL" (upperStr t)) = true →
        parseModeCell (some t) = "Digital")
  ∧ (∀ t, (containsSub "P25" (upperStr t) || containsSub "DIGITAL" (upperStr t)) = false →
        containsSub "DMR" (upperStr t) = true → parseModeCell (some t) = "DMR")
  ∧ (∀ t, (containsSub "P25" (upperStr t) || containsSub "DIGITAL" (upperStr t)) = false →
        containsSub "DMR" (upperStr t) = false → containsSub "NXDN" (upperStr t) = true →
        parseModeCell (some t) = "NXDN")
  ∧ (∀ t, (containsSub "P25" (upperStr t) || containsSub "DIGITAL" (upperStr t)) = false →
        containsSub "DMR" (upperStr t) = false → containsSub "NXDN" (upperStr t) = false →
        parseModeCell (some t) = "FM")
  ∧ parseModeCell none = "FM"
  ∧ parseModeCell (some "P25/DMR") = "Digital" := by
  refine ⟨?_, ?_, ?_, ?_, rfl, rfl⟩
  · intro t h
    simp only [parseModeCell, h, if_true]
  · intro t h1 h2
    simp only [parseModeCell, h1, h2, if_true, Bool.false_eq_true, if_false]
  · intro t h1 h2 h3
    simp only [parseModeCell, h1, h2, h3, if_true, Bool.false_eq_true, if_false]
  · intro t h1 h2 h3
    simp only [parseModeCell, h1, h2, h3, Bool.false_eq_true, if_false]
    split <;> rfl

/-- Witness for C7 at concrete inputs, discharging every hypothesis. -/
theorem c7_witness :
    parseModeCell (some "P25/DMR") = "Digital"
  ∧ parseModeCell (some "DMR") = "DMR"
  ∧ parseModeCell (some "NXDN") = "NXDN"
  ∧ parseModeCell (some "FM") = "FM" :=
  ⟨c7_mode_precedence.1 "P25/DMR" (by rfl),
   c7_mode_precedence.2.1 "DMR" (by rfl) (by rfl),
   c7_mode_precedence.2.2.1 "NXDN" (by rfl) (by rfl) (by rfl),
   c7_mode_precedence.2.2.2.1 "FM" (by rfl) (by rfl) (by rfl)⟩

/- ===== Claim C6: tone parsing ===== -/

/-- C6: tone parsing maps the empty text to No Tone, 100.0 to a Tone at 100.0 in
both tone-frequency fields, and DCS 23 to DTCS code 23 in both fields; in
general any nonempty tone text in which the number pattern matches yields DTCS
when the text mentions DCS or DTCS and Tone otherwise, with the matched number
mirrored into both fields; when the number pattern has no match the integer
fallback cannot match either (both need a digit) and the result is No Tone; and
the two tone-frequency fields are always equal. -/
theorem c6_tone_parsing :
    _parse_tone "" = ("No Tone", "", "")
  ∧ _parse_tone "100.0" = ("Tone", "100.0", "100.0")
  ∧ _parse_tone "DCS 23" = ("DTCS", "23", "23")
  ∧ (∀ s n, s ≠ "" → searchNum (pyStrip (upperStr s)) = some n →
      _parse_tone s =
        ((if (containsSub "DCS" (pyStrip (upperStr s)) || containsSub "DTCS" (pyStrip (upperStr s))) = true
          then "DTCS" else "Tone"), n, n))
  ∧ (∀ s, s ≠ "" → searchNum (pyStrip (upperStr s)) = none → _parse_tone s = ("No Tone", "", ""))
  ∧ (∀ s, (_parse_tone s).2.1 = (_parse_tone s).2.2) := by
  refine ⟨rfl, rfl, rfl, ?_, ?_, parse_tone_mirrors⟩
  · intro s n hs hn
    unfold _parse_tone
    rw [if_neg hs]
    dsimp only
    rw [hn]
    cases hc : containsSub "DCS" (pyStrip (upperStr s)) || containsSub "DTCS" (pyStrip (upperStr s)) <;>
      simp [hc]
  · intro s hs hn
    have hnAux : searchNumAux (pyStrip (upperStr s)).toList = none := by
      unfold searchNum at hn
      exact Option.map_eq_none'.mp hn
    have hint : searchInt (pyStrip (upperStr s)) = none := by
      unfold searchInt
      rw [searchIntAux_none_of_searchNumAux_none hnAux]
      rfl
    unfold _parse_tone
    rw [if_neg hs]
    dsimp only
    rw [hn, hint]
    cases hc : containsSub "DCS" (pyStrip (upperStr s)) || containsSub "DTCS" (pyStrip (upperStr s)) <;>
      simp [hc]

/-- Witness for C6 at concrete inputs, discharging every hypothesis. -/
theorem c6_witness :
    _parse_tone "100.0" = ("Tone", "100.0", "100.0")
  ∧ _parse_tone "DCS 23" = ("DTCS", "23", "23")
  ∧ _parse_tone "ABC" = ("No Tone", "", "") :=
  ⟨c6_tone_parsing.2.2.2.1 "100.0" "100.0" (by decide) rfl,
   c6_tone_parsing.2.2.2.1 "DCS 23" "23" (by decide) rfl,
   c6_tone_parsing.2.2.2.2.1 "ABC" (by decide) rfl⟩

/- ===== Claim C8: filter semantics ===== -/

/-- C8: filter_frequencies is case-insensitive in the filter token, and applies
per-category membership rules: FM or ANALOG passes empty, FM and AM modes plus
any mode containing FM or ANALOG; DIGITAL or ENCRYPTED passes the exact set
Digital, DMR, P25, NXDN, D-STAR, C4FM; DMR passes modes containing DMR; P25
passes modes containing P25 or DIGITAL; any other token uses the bidirectional
substring rule; filtering the FM, DMR, empty-mode example by FM keeps exactly
the first and third records. -/
theorem c8_filter_semantics :
    filter_frequencies [recFM, recDMR, recEmptyMode] (some "FM") = [recFM, recEmptyMode]
  ∧ (∀ freqs t, filter_frequencies freqs (some t) = filter_frequencies freqs (some (upperStr t)))
  ∧ (∀ freqs t, t ≠ "" → filter_frequencies freqs (some t) = freqs.filter (keepRecord (pyStrip (upperStr t))))
  ∧ (∀ freq, keepRecord "FM" freq =
      ((upperStr freq.Mode = "FM" || upperStr freq.Mode = "AM" || upperStr freq.Mode = "")
        || containsSub "FM" (upperStr freq.Mode) || containsSub "ANALOG" (upperStr freq.Mode)))
  ∧ (∀ freq, keepRecord "ANALOG" freq =
      ((upperStr freq.Mode = "FM" || upperStr freq.Mode = "AM" || upperStr freq.Mode = "")
        || containsSub "FM" (upperStr freq.Mode) || containsSub "ANALOG" (upperStr freq.Mode)))
  ∧ (∀ freq, keepRecord "DIGITAL" freq =
      (upperStr freq.Mode = "DIGITAL" || upperStr freq.Mode = "DMR" || upperStr freq.Mode = "P25"
        || upperStr freq.Mode = "NXDN" || upperStr freq.Mode = "D-STAR" || upperStr freq.Mode = "C4FM"))
  ∧ (∀ freq, keepRecord "ENCRYPTED" freq =
      (upperStr freq.Mode = "DIGITAL" || upperStr freq.Mode = "DMR" || upperStr freq.Mode = "P25"
        || upperStr freq.Mode = "NXDN" || upperStr freq.Mode = "D-STAR" || upperStr freq.Mode = "C4FM"))
  ∧ (∀ freq, keepRecord "DMR" freq = containsSub "DMR" (upperStr freq.Mode))
  ∧ (∀ freq, keepRecord "P25" freq =
      (containsSub "P25" (upperStr freq.Mode) || containsSub "DIGITAL" (upperStr freq.Mode)))
  ∧ (∀ freq fm, fm ≠ "FM" → fm ≠ "ANALOG" → fm ≠ "DIGITAL" → fm ≠ "ENCRYPTED" → fm ≠ "DMR" → fm ≠ "P25" →
      keepRecord fm freq = (containsSub fm (upperStr freq.Mode) || containsSub (upperStr freq.Mode) fm)) := by
  refine ⟨rfl, ?_, ?_, ?_, ?_, ?_, ?_, ?_, ?_, ?_⟩
  · intro freqs t
    unfold filter_frequencies
    dsimp only
    by_cases h : t = ""
    · subst h
      rfl
    · rw [if_neg h, if_neg (fun hc => h ((upperStr_eq_empty_iff t).mp hc))]
      rw [upperStr_idem]
  · intro freqs t ht
    unfold filter_frequencies
    dsimp only
    rw [if_neg ht]
  · intro freq
    rfl
  · intro freq
    rfl
  · intro freq
    rfl
  · intro freq
    rfl
  · intro freq
    rfl
  · intro freq
    rfl
  · intro freq fm h1 h2 h3 h4 h5 h6
    simp [keepRecord, h1, h2, h3, h4, h5, h6]

/-- Witness for C8 at concrete inputs, discharging every hypothesis. -/
theorem c8_witness :
    filter_frequencies [recFM, recDMR, recEmptyMode] (some "Fm") = [recFM, recEmptyMode]
  ∧ keepRecord "XYZ" recFM = false
  ∧ keepRecord "ANALOG" recEmptyMode = true
  ∧ keepRecord "ENCRYPTED" recDMR = true := by
  refine ⟨?_, ?_, ?_, ?_⟩
  · rw [c8_filter_semantics.2.2.1 [recFM, recDMR, recEmptyMode] "Fm" (by decide)]
    rfl
  · rw [c8_filter_semantics.2.2.2.2.2.2.2.2.2 recFM "XYZ" (by decide) (by decide) (by decide)
      (by decide) (by decide) (by decide)]
    rfl
  · rw [c8_filter_semantics.2.2.2.2.1 recEmptyMode]
    rfl
  · rw [c8_filter_semantics.2.2.2.2.2.2.1 recDMR]
    rfl

/- ===== Claim C9: row-acceptance gate and error-free extraction ===== -/

/-- A row whose frequency text has no decimal match is skipped. -/
theorem parseRowPre_none_of_gate {cm : ColMap} {state : String} {county city : Option String}
    {cells : List String} (h : searchDecimal (rowFreqText cm cells) = none) :
    parseRowPre cm state county city cells = none := by
  unfold parseRowPre
  split
  · rfl
  · rw [h]

/-- C9: the extractor never fails on malformed rows: any candidate-table row whose
frequency cell lacks a decimal-number match is silently dropped (its parse is
none, so it contributes no record), and a candidate table none of whose data
rows pass the gate contributes zero records; extraction is a total function
returning a record list for every input. -/
theorem c9_frequency_gate :
    (∀ cm state county city cells, searchDecimal (rowFreqText cm cells) = none →
        parseRowPre cm state county city cells = none)
  ∧ (∀ state county city header rows,
        (∀ cells ∈ rows, searchDecimal (rowFreqText (buildColMap (header.map (fun h => lowerStr h))) cells) = none) →
        tableRecords state county city (header :: rows) = []) := by
  constructor
  · intro cm state county city cells h
    exact parseRowPre_none_of_gate h
  · intro state county city header rows hall
    unfold tableRecords
    split
    · rfl
    · dsimp only
      split
      · apply List.filterMap_eq_nil_iff.mpr
        intro cells hc
        exact parseRowPre_none_of_gate (hall cells hc)
      · rfl

/-- Witness for C9: a row reading Channel A is dropped without error and a table
holding only that row yields zero records. -/
theorem c9_witness :
    parseRowPre (buildColMap ["frequency", "description"]) "CA" none none ["Channel A", "test"] = none
  ∧ tableRecords "CA" none none [["Frequency", "Description"], ["Channel A", "test"]] = [] := by
  constructor
  · exact c9_frequency_gate.1 (buildColMap ["frequency", "description"]) "CA" none none
      ["Channel A", "test"] (by rfl)
  · exact c9_frequency_gate.2 "CA" none none ["Frequency", "Description"] [["Channel A", "test"]]
      (by intro cells hc
          simp only [List.mem_singleton] at hc
          subst hc
          rfl)

/- ===== Claim C10: record field invariants ===== -/

/-- Every record parseRowPre produces mirrors the tone value and leaves the DCS
columns empty with polarity NN. -/
theorem parseRowPre_fields {cm : ColMap} {state : String} {county city : Option String}
    {cells : List String} {r : FreqRecord}
    (h : parseRowPre cm state county city cells = some r) :
    r.rToneFreq = r.cToneFreq ∧ r.DtcsCode = "" ∧ r.RxDtcsCode = "" ∧ r.CrossMode = ""
      ∧ r.DtcsPolarity = "NN" := by
  unfold parseRowPre at h
  split at h
  · exact absurd h (by simp)
  · split at h
    · exact absurd h (by simp)
    · injection h with h
      subst h
      exact ⟨parse_tone_mirrors _, rfl, rfl, rfl, rfl⟩

/-- Membership in a table unpacks to a successful row parse. -/
theorem mem_tableRecords {state : String} {county city : Option String}
    {table : List (List String)} {r : FreqRecord}
    (h : r ∈ tableRecords state county city table) :
    ∃ cm cells, parseRowPre cm state county city cells = some r := by
  unfold tableRecords at h
  split at h
  · exact absurd h (by simp)
  · split at h
    · exact absurd h (by simp)
    · dsimp only at h
      split at h
      · rw [List.mem_filterMap] at h
        obtain ⟨cells, -, hp⟩ := h
        exact ⟨_, cells, hp⟩
      · exact absurd h (by simp)

/-- Membership in the location-assigned list comes from a member of the original
list with only its Location changed. -/
theorem mem_assignLocations {r : FreqRecord} {start : Nat} {l : List FreqRecord}
    (h : r ∈ assignLocations start l) :
    ∃ r0 ∈ l, ∃ k : Nat, r = { r0 with Location := toString k } := by
  induction l generalizing start with
  | nil => exact absurd h (by simp [assignLocations])
  | cons a as ih =>
    unfold assignLocations at h
    rw [List.mem_cons] at h
    cases h with
    | inl h => exact ⟨a, by simp, start, h⟩
    | inr h =>
      obtain ⟨r0, hr0, k, hk⟩ := ih h
      exact ⟨r0, by simp [hr0], k, hk⟩

/-- C10: every record produced by the extractor has rToneFreq equal to cToneFreq,
empty DtcsCode, RxDtcsCode and CrossMode, and DtcsPolarity NN; even for DTCS
tones the code value lives in the two tone-frequency fields, never in DtcsCode. -/
theorem c10_record_invariants :
    ∀ tables state county city r, r ∈ _parse_html_response tables state county city →
      r.rToneFreq = r.cToneFreq ∧ r.DtcsCode = "" ∧ r.RxDtcsCode = "" ∧ r.CrossMode = ""
        ∧ r.DtcsPolarity = "NN" := by
  intro tables state county city r hr
  unfold _parse_html_response at hr
  obtain ⟨r0, hr0, k, rfl⟩ := mem_assignLocations hr
  rw [List.mem_flatMap] at hr0
  obtain ⟨table, -, htr⟩ := hr0
  obtain ⟨cm, cells, hp⟩ := mem_tableRecords htr
  obtain ⟨h1, h2, h3, h4, h5⟩ := parseRowPre_fields hp
  exact ⟨h1, h2, h3, h4, h5⟩

/-- Witness for C10 on the concrete sample extraction. -/
theorem c10_witness :
    sampleRecord.rToneFreq = sampleRecord.cToneFreq ∧ sampleRecord.DtcsCode = ""
      ∧ sampleRecord.RxDtcsCode = "" ∧ sampleRecord.CrossMode = ""
      ∧ sampleRecord.DtcsPolarity = "NN" :=
  c10_record_invariants [sampleTable] "CA" (some "los angeles") none sampleRecord
    (by rw [show _parse_html_response [sampleTable] "CA" (some "los angeles") none = [sampleRecord] from rfl]
        exact List.mem_singleton.mpr rfl)

/- ===== Claim C2: Location assignment ===== -/

/-- Element-wise description of assignLocations. -/
theorem assignLocations_get? (start : Nat) (l : List FreqRecord) (i : Nat) :
    (assignLocations start l).get? i
      = (l.get? i).map (fun r => { r with Location := toString (start + i) }) := by
  induction l generalizing start i with
  | nil => simp [assignLocations]
  | cons a as ih =>
    cases i with
    | zero => simp [assignLocations]
    | succ n =>
      unfold assignLocations
      simp only [List.get?_cons_succ]
      rw [ih (start + 1) n]
      simp only [Nat.add_succ, Nat.succ_add]

/-- Element-wise description of the export renumbering loop. -/
theorem exportLocationLoop_get? (fe : Bool) (start j i : Nat) (l : List FreqRecord) :
    (exportLocationLoop fe start j l).get? i = (l.get? i).map (fun f =>
      if f.Location = "" then { f with Location := toString (start + (j + i)) }
      else if fe then { f with Location := toString (start + (j + i)) } else f) := by
  induction l generalizing j i with
  | nil => simp [exportLocationLoop]
  | cons a as ih =>
    cases i with
    | zero => simp [exportLocationLoop]
    | succ n =>
      unfold exportLocationLoop
      simp only [List.get?_cons_succ]
      rw [ih (j + 1) n]
      simp only [Nat.add_succ, Nat.succ_add]

/-- C2 (amended): the extractor itself assigns Location sequentially at extraction
time, the record at position i carrying Location i; to_chirp_csv then renumbers
a record as start plus index only when its Location is empty or when appending
to an existing file, and otherwise writes the record unchanged. -/
theorem c2_location_assignment :
    (∀ tables state county city i r,
        (_parse_html_response tables state county city).get? i = some r → r.Location = toString i)
  ∧ (∀ freqs start i r0, freqs.get? i = some r0 →
        (to_chirp_csv_records freqs true start).get? i
          = some { r0 with Location := toString (start + i) })
  ∧ (∀ freqs start i r0, freqs.get? i = some r0 → r0.Location ≠ "" →
        (to_chirp_csv_records freqs false start).get? i = some r0)
  ∧ (∀ freqs start i r0, freqs.get? i = some r0 → r0.Location = "" →
        (to_chirp_csv_records freqs false start).get? i
          = some { r0 with Location := toString (start + i) }) := by
  refine ⟨?_, ?_, ?_, ?_⟩
  · intro tables state county city i r h
    unfold _parse_html_response at h
    rw [assignLocations_get?] at h
    obtain ⟨r0, -, hr⟩ := Option.map_eq_some'.mp h
    rw [← hr]
    simp
  · intro freqs start i r0 h
    unfold to_chirp_csv_records
    rw [exportLocationLoop_get?, h]
    simp only [Option.map_some', Nat.zero_add]
    split <;> rfl
  · intro freqs start i r0 h hloc
    unfold to_chirp_csv_records
    rw [exportLocationLoop_get?, h]
    simp only [Option.map_some', Nat.zero_add]
    rw [if_neg hloc]
    rfl
  · intro freqs start i r0 h hloc
    unfold to_chirp_csv_records
    rw [exportLocationLoop_get?, h]
    simp only [Option.map_some', Nat.zero_add]
    rw [if_pos hloc]

/-- Counterexample to C2 as stated: the extractor assigns Location already at
extraction time (the first extracted record carries Location 0, not an empty
one), and on a fresh non-appending export to_chirp_csv leaves that nonempty
Location untouched rather than assigning it at export time. -/
theorem c2_counterexample :
    (_parse_html_response [sampleTable] "CA" (some "los angeles") none).map (fun r => r.Location) = ["0"]
  ∧ ("0" : String) ≠ ""
  ∧ to_chirp_csv_records [recLocSeven] false 0 = [recLocSeven]
  ∧ recLocSeven.Location = "7" := by
  exact ⟨rfl, by decide, rfl, rfl⟩

/-- Witness for C2 at concrete inputs, discharging every hypothesis. -/
theorem c2_witness :
    sampleRecord.Location = toString 0
  ∧ (to_chirp_csv_records [recLocSeven] true 5).get? 0
      = some { recLocSeven with Location := toString 5 }
  ∧ (to_chirp_csv_records [recLocSeven] false 0).get? 0 = some recLocSeven := by
  refine ⟨?_, ?_, ?_⟩
  · exact c2_location_assignment.1 [sampleTable] "CA" (some "los angeles") none 0 sampleRecord rfl
  · exact c2_location_assignment.2.1 [recLocSeven] 5 0 recLocSeven rfl
  · exact c2_location_assignment.2.2.1 [recLocSeven] 0 0 recLocSeven rfl (by decide)

/- ===== Claim C3: county key normalization ===== -/

/-- C3 (amended): the cache lookup key lowercases the county, removes the word
county preceded by a space, trims whitespace and lowercases the state, so the
keys derived from Los Angeles County and los angeles are identical and both
lookups hit the same entry; a Parish suffix, however, is kept as part of the
key by the lookup path. -/
theorem c3_county_key_normalization :
    _get_known_county_id_key "Los Angeles County" "CA" = ("los angeles", "ca")
  ∧ _get_known_county_id_key "los angeles" "CA" = ("los angeles", "ca")
  ∧ (∀ cache state, _get_known_county_id cache "Los Angeles County" state
      = _get_known_county_id cache "los angeles" state)
  ∧ lookup_by_county_state_county "Los Angeles County" = "Los Angeles"
  ∧ _get_known_county_id_key "Orleans Parish" "LA" = ("orleans parish", "la") := by
  refine ⟨rfl, rfl, ?_, rfl, rfl⟩
  intro cache state
  rfl

/-- Counterexample to C3 as stated: the claimed normalization strips the Parish,
Borough and Census Area suffixes, but the key the lookup path actually builds
for Orleans Parish keeps the parish suffix. -/
theorem c3_counterexample :
    _get_known_county_id_key "Orleans Parish" "LA" ≠ claimCountyKey "Orleans Parish" "LA" := by
  decide

/-- Witness for C3 at concrete inputs, discharging every hypothesis. -/
theorem c3_witness :
    _get_known_county_id [] "Los Angeles County" "CA" = _get_known_county_id [] "los angeles" "CA" :=
  c3_county_key_normalization.2.2.1 [] "CA"

/- ===== Claim C4: verifier fail-open behavior ===== -/

/-- C4 (amended): the external county verifier returns true on any exception
raised during the request or parse (fail-open); once a response is received it
returns true only for a status 200 response whose first result matches the
state by bidirectional substring and whose county field, when nonempty,
contains or starts with the requested county: a non-200 response, an empty
result list, or a mismatching first result all yield false. -/
theorem c4_verifier_fail_open :
    (∀ county state, _verify_county_with_api county state ApiResult.fail = true)
  ∧ (∀ county state status data, status ≠ 200 →
        _verify_county_with_api county state (ApiResult.response status data) = false)
  ∧ (∀ county state, _verify_county_with_api county state (ApiResult.response 200 []) = false)
  ∧ (∀ county state addr rest,
        _verify_county_with_api county state (ApiResult.response 200 (addr :: rest))
          = (verifierStateMatches state addr && verifierCountyMatches county addr)) := by
  refine ⟨fun county state => rfl, ?_, fun county state => rfl, ?_⟩
  · intro county state status data h
    unfold _verify_county_with_api
    dsimp only
    rw [if_neg h]
  · intro county state addr rest
    unfold _verify_county_with_api verifierCountyMatches
    dsimp only
    rw [if_pos rfl]
    cases hs : verifierStateMatches state addr with
    | false => simp [hs]
    | true =>
      simp only [hs, if_true, Bool.true_and]

/-- Counterexample to C4 as stated: on an HTTP 500 response (an upstream failure,
not a well-formed response disagreeing with the requested pair) the verifier
returns false instead of failing open. -/
theorem c4_counterexample :
    _verify_county_with_api "orleans" "LA" (ApiResult.response 500 []) = false
  ∧ claimWellFormedDisagree "orleans" "LA" (ApiResult.response 500 []) = false := by
  exact ⟨rfl, rfl⟩

/-- Witness for C4 at concrete inputs, discharging every hypothesis. -/
theorem c4_witness :
    _verify_county_with_api "orleans" "LA" (ApiResult.response 404 []) = false :=
  c4_verifier_fail_open.2.1 "orleans" "LA" 404 [] (by decide)

/- ===== Claim C1: batch verification gate ===== -/

/-- Cache membership after an append. -/
theorem cacheHas_append (c : CountyCache) (p : CountyKey × String) (k : CountyKey) :
    cacheHas (c ++ [p]) k = (cacheHas c k || p.1 == k) := by
  simp [cacheHas, List.any_append]

/-- The acceptance loop never removes a cached key. -/
theorem cacheMergeStep_foldl_mono (discovered : CountyCache) (acc : CountyCache × Nat)
    (k : CountyKey) (h : cacheHas acc.1 k = true) :
    cacheHas (discovered.foldl cacheMergeStep acc).1 k = true := by
  induction discovered generalizing acc with
  | nil => exact h
  | cons q rest ih =>
    simp only [List.foldl_cons]
    apply ih
    unfold cacheMergeStep
    split
    · exact h
    · simp [cacheHas_append, h]

/-- Every discovered key is present after the acceptance loop. -/
theorem cacheMergeStep_foldl_mem (discovered : CountyCache) (acc : CountyCache × Nat)
    {p : CountyKey × String} (hp : p ∈ discovered) :
    cacheHas (discovered.foldl cacheMergeStep acc).1 p.1 = true := by
  induction discovered generalizing acc with
  | nil => exact absurd hp (by simp)
  | cons q rest ih =>
    rw [List.mem_cons] at hp
    simp only [List.foldl_cons]
    cases hp with
    | inl h =>
      subst h
      apply cacheMergeStep_foldl_mono
      unfold cacheMergeStep
      split
      · next hc => exact hc
      · simp [cacheHas_append]
    | inr h => exact ih _ h

/-- C1 (amended): the outer cache builder verifies a sample of min 5 pairs and
accepts exactly when the verified count reaches 80 percent of the sample (4 of
5 accepts, 3 of 5 rejects); on rejection the outer function persists nothing,
and on acceptance every discovered key is present in the saved cache; however
the inner rendered-page discovery persists the playwright batch to the cache
before the gate runs, so a rejected batch does not imply zero new cache entries
from the discovery operation as a whole. -/
theorem c1_verification_gate :
    (∀ existing discovered verify, discovered ≠ [] →
        ((build_county_cache_for_state existing discovered verify).accepted = true
          ↔ 5 * sampleVerifiedCount verify discovered ≥ 4 * min 5 discovered.length))
  ∧ (∀ existing discovered verify,
        (build_county_cache_for_state existing discovered verify).accepted = false →
        (build_county_cache_for_state existing discovered verify).outerSaves = [])
  ∧ (∀ existing discovered verify p,
        (build_county_cache_for_state existing discovered verify).accepted = true →
        p ∈ discovered →
        cacheHas (build_county_cache_for_state existing discovered verify).savedCache p.1 = true)
  ∧ (∀ existing playwright mined, playwright ≠ [] →
        (_build_county_cache_for_state none playwright mined existing).innerSaves
          = [dictUpdate existing playwright]) := by
  refine ⟨?_, ?_, ?_, ?_⟩
  · intro existing discovered verify h
    have hne : discovered.isEmpty = false := by
      cases discovered with
      | nil => exact absurd rfl h
      | cons a l => rfl
    unfold build_county_cache_for_state
    rw [hne]
    simp only [Bool.false_eq_true, if_false]
    split
    · next hcond => simp [hcond]
    · next hcond => simp [hcond]
  · intro existing discovered verify
    unfold build_county_cache_for_state
    split
    · intro _
      rfl
    · dsimp only
      split
      · intro h
        exact absurd h (by simp)
      · intro _
        rfl
  · intro existing discovered verify p
    unfold build_county_cache_for_state
    split
    · intro h
      exact absurd h (by simp)
    · dsimp only
      split
      · intro _ hp
        exact cacheMergeStep_foldl_mem discovered (existing, 0) hp
      · intro h
        exact absurd h (by simp)
  · intro existing playwright mined h
    have hne : playwright.isEmpty = false := by
      cases playwright with
      | nil => exact absurd rfl h
      | cons a l => rfl
    simp [_build_county_cache_for_state, hne]

/-- Counterexample to C1 as stated: with the rendered-page discovery path and a
sample verifying only 3 of 5, the outer gate rejects the batch, yet the
discovery operation as a whole has already persisted all five new county
entries before verification, so the number of new cache entries is not zero. -/
theorem c1_counterexample :
    sampleVerifiedCount cxVerify cxDiscovery.discovered = 3
  ∧ min 5 cxDiscovery.discovered.length = 5
  ∧ (build_county_cache_for_state [] cxDiscovery.discovered cxVerify).accepted = false
  ∧ newKeysPersisted [] (discoverySaves [] cxDiscovery cxVerify) ≠ [] := by
  exact ⟨rfl, rfl, rfl, by decide⟩

/-- Witness for C1 at concrete inputs, discharging every hypothesis: a 4 of 5
sample accepts the batch, a 3 of 5 sample produces no outer save, an accepted
key is cached, and the rendered-page path saves before verification. -/
theorem c1_witness :
    (build_county_cache_for_state [] cxPlaywright cxVerifyFour).accepted = true
  ∧ (build_county_cache_for_state [] cxPlaywright cxVerify).outerSaves = []
  ∧ cacheHas (build_county_cache_for_state [] cxPlaywright cxVerifyFour).savedCache ("alpha", "mi") = true
  ∧ (_build_county_cache_for_state none cxPlaywright [] []).innerSaves = [dictUpdate [] cxPlaywright] := by
  refine ⟨?_, ?_, ?_, ?_⟩
  · exact (c1_verification_gate.1 [] cxPlaywright cxVerifyFour (by decide)).mpr (by decide)
  · exact c1_verification_gate.2.1 [] cxPlaywright cxVerify rfl
  · exact c1_verification_gate.2.2.1 [] cxPlaywright cxVerifyFour (("alpha", "mi"), "101")
      ((c1_verification_gate.1 [] cxPlaywright cxVerifyFour (by decide)).mpr (by decide)) (by decide)
  · exact c1_verification_gate.2.2.2 [] cxPlaywright [] (by decide)
